import Mathlib

/-!
Shallow embedding of the youtube_downloader repository (src/downloader.py and
src/app.py) and verification of its specification claims.

The embedding models the pure decision logic of the two surfaces:
the format catalog builder (`get_available_formats`), the display/partition and
selection logic (`display_formats_and_select`, the Streamlit `format_data`
table), the collision handling of `download_with_yt_dlp` and
`download_with_streamlit`, and the two progress hooks.  The filesystem is
modelled as a map from paths to `Option Nat` (file size when the file exists);
user input and the extraction collaborator's data are explicit parameters.
-/

set_option autoImplicit false

namespace YtDl

/-- `os.path.join(a, b)` for the simple two-component uses in this code. -/
def path_join (a b : String) : String := a ++ "/" ++ b

/-- `title.replace('/', '_').replace('\\', '_')` as in both download surfaces. -/
def sanitize_title (t : String) : String :=
  String.mk (t.data.map fun c => if c = '/' ∨ c = '\\' then '_' else c)

/-- Whether `needle` occurs at the head of `hay` (char lists). -/
def charsStartWith : List Char → List Char → Bool
  | _, [] => true
  | [], _ :: _ => false
  | h :: hs, n :: ns => h == n && charsStartWith hs ns

/-- Whether `needle` occurs anywhere inside `hay` (char lists). -/
def charsContain : List Char → List Char → Bool
  | [], ns => ns.isEmpty
  | h :: hs, ns => charsStartWith (h :: hs) ns || charsContain hs ns

/-- Python's `needle in hay` substring test. -/
def strContains (hay needle : String) : Bool :=
  charsContain hay.data needle.data

/-- A raw stream descriptor as read off one entry of `info.get('formats')` in
`get_available_formats` (src/downloader.py lines 44-57): the fields the
filtering logic consults. -/
structure RawFormat where
  format_id : String
  ext : String
  resolution : String
  vcodec : String
  acodec : String
  deriving Repr, DecidableEq

/-- The filter at src/downloader.py line 56:
`if vcodec == 'none' and not (acodec != 'none' and ext == 'mp3'): continue`.
Returns `true` when the descriptor is KEPT. -/
def keepFormat (f : RawFormat) : Bool :=
  !(f.vcodec == "none" && !(f.acodec != "none" && f.ext == "mp3"))

/-- The dictionary built per kept descriptor (src/downloader.py lines 60-68),
restricted to the fields later logic reads. -/
structure FormatInfo where
  format_id : String
  ext : String
  resolution : String
  has_video : Bool
  has_audio : Bool
  deriving Repr, DecidableEq

def toFormatInfo (f : RawFormat) : FormatInfo :=
  { format_id := f.format_id
    ext := f.ext
    resolution := f.resolution
    has_video := f.vcodec != "none"
    has_audio := f.acodec != "none" }

/-- The catalog-building loop of `get_available_formats`
(src/downloader.py lines 44-72): filter then collect, order preserved. -/
def get_available_formats (raw : List RawFormat) : List FormatInfo :=
  (raw.filter keepFormat).map toFormatInfo

/-- The video partition (src/downloader.py lines 92-94; src/app.py line 84):
descriptors with a video track. -/
def video_formats (fs : List FormatInfo) : List FormatInfo :=
  fs.filter fun f => f.has_video

/-- The audio-only partition (src/downloader.py lines 95-96; src/app.py
line 85): audio present, video absent. -/
def audio_formats (fs : List FormatInfo) : List FormatInfo :=
  fs.filter fun f => f.has_audio && !f.has_video

/-- The "best combined" fallback expression (src/downloader.py lines 123, 136,
141, 145; src/app.py line 164). -/
def best_expr : String := "best[ext=mp4]"

/-- The "best audio" fallback expression (src/downloader.py line 138;
src/app.py line 166). -/
def bestaudio_expr : String := "bestaudio[ext=mp3]/bestaudio"

/-- User input to the interactive format prompt: blank, an integer, or a
non-numeric string (which makes `int(selection)` raise `ValueError`). -/
inductive UserInput where
  | blank
  | num (idx : Int)
  | nonNumeric
  deriving Repr, DecidableEq

/-- The selection logic of `display_formats_and_select`
(src/downloader.py lines 118-145).  Returns `none` exactly where the Python
code would raise an uncaught `IndexError` (audio-partition indexing past the
end, possible only for catalogs where some entry has neither audio nor
video). -/
def selection_resolve (formats : List FormatInfo) : UserInput → Option String
  | .blank => some best_expr
  | .nonNumeric => some best_expr
  | .num idx =>
    let video := video_formats formats
    let audio := audio_formats formats
    if 0 ≤ idx ∧ idx < (video.length : Int) then
      (video.get? idx.toNat).map fun f => f.format_id
    else if (video.length : Int) ≤ idx ∧ idx < (formats.length : Int) then
      (audio.get? (idx - (video.length : Int)).toNat).map fun f => f.format_id
    else if idx = (formats.length : Int) then
      some best_expr
    else if idx = (formats.length : Int) + 1 then
      some bestaudio_expr
    else
      some best_expr

/-- One row of the Streamlit format table (src/app.py lines 88-137), keeping
the columns the ordering claims are about. -/
structure FormatRow where
  idx : Nat
  format_id : String
  content : String
  deriving Repr, DecidableEq

/-- The `format_data` table built in src/app.py lines 88-137: video rows,
then audio rows, then the two synthesized "best" rows. -/
def format_data (fs : List FormatInfo) : List FormatRow :=
  let video := video_formats fs
  let audio := audio_formats fs
  (video.enum.map fun p =>
    { idx := p.1
      format_id := p.2.format_id
      content := if p.2.has_audio then "Video+Audio" else "Video" }) ++
  (audio.enum.map fun p =>
    { idx := p.1 + video.length
      format_id := p.2.format_id
      content := "Audio only" }) ++
  [{ idx := fs.length, format_id := "best", content := "Best quality" },
   { idx := fs.length + 1, format_id := "bestaudio", content := "Best audio" }]

/-! ## Collision handling: command-line surface (`download_with_yt_dlp`) -/

/-- A filesystem snapshot: maps a path to the file's size when it exists. -/
def FileSystem : Type := String → Option Nat

/-- The `potential_filename` computed at src/downloader.py line 209 and
src/app.py line 193: `os.path.join(output_path, f"{video_title}.mp4")`. -/
def potential_filename (output_path video_title : String) : String :=
  path_join output_path (video_title ++ ".mp4")

/-- The audio candidate path of src/app.py line 194:
`os.path.join(output_path, f"{video_title}.mp3")`. -/
def potential_filename_audio (output_path video_title : String) : String :=
  path_join output_path (video_title ++ ".mp3")

/-- The observable outcome of one `download_with_yt_dlp` run
(src/downloader.py lines 147-244), assuming the collaborator calls succeed. -/
structure CliResult where
  /-- The boolean returned to `main`. -/
  retval : Bool
  /-- Whether the `yt_dlp` download call (line 225-226) was reached. -/
  invoked_download : Bool
  /-- Whether the interactive collision prompt (line 212) was shown. -/
  prompted : Bool
  /-- The effective `ydl_opts['overwrites']` flag (absent modelled as false). -/
  overwrites : Bool
  /-- The effective `ydl_opts['outtmpl']` template. -/
  outtmpl : String
  /-- Whether the mp3 extraction postprocessor (lines 196-201) was attached. -/
  audio_extraction : Bool
  /-- Whether the closing success message (line 239) was printed. -/
  reported_success : Bool
  /-- Whether any missing-file warning was emitted after the download. -/
  warned_missing : Bool
  deriving Repr, DecidableEq

/-- The collision/overwrite/reporting logic of `download_with_yt_dlp`
(src/downloader.py lines 147-244) for a given resolved `format_id`,
with the raw video title, the force flag, the user's (lowercased) prompt
response and `int(time.time())` as inputs.  The extraction and download
collaborator calls are assumed to succeed; `fs` is the filesystem at the
existence check of line 210. -/
def download_with_yt_dlp (fs : FileSystem) (output_path title format_id : String)
    (force : Bool) (response : String) (timestamp : Nat) : CliResult :=
  let video_title := sanitize_title title
  let base_outtmpl := path_join output_path "%(title)s.%(ext)s"
  let audio_extract := strContains format_id "bestaudio" && strContains format_id "mp3"
  let potential := potential_filename output_path video_title
  if (fs potential).isSome && !force then
    if response = "y" then
      { retval := true, invoked_download := true, prompted := true
        overwrites := true, outtmpl := base_outtmpl
        audio_extraction := audio_extract
        reported_success := true, warned_missing := false }
    else if response = "r" then
      { retval := true, invoked_download := true, prompted := true
        overwrites := force
        outtmpl := path_join output_path ("%(title)s_" ++ toString timestamp ++ ".%(ext)s")
        audio_extraction := audio_extract
        reported_success := true, warned_missing := false }
    else
      { retval := true, invoked_download := false, prompted := true
        overwrites := force, outtmpl := base_outtmpl
        audio_extraction := audio_extract
        reported_success := false, warned_missing := false }
  else
    { retval := true, invoked_download := true, prompted := false
      overwrites := force, outtmpl := base_outtmpl
      audio_extraction := audio_extract
      reported_success := true, warned_missing := false }

/-- The per-URL success counting of `main` (src/downloader.py lines 283-291):
`success_count` increments for each run whose return value is truthy. -/
def success_count (results : List CliResult) : Nat :=
  (results.filter fun r => r.retval).length

/-! ## Collision handling: browser surface (`download_with_streamlit`) -/

/-- The three decision strings the button callbacks store
(src/app.py lines 205-216). -/
inductive FileDecision where
  | redownload
  | new_name
  | skipDecision
  deriving Repr, DecidableEq

/-- The Streamlit session state slice initialized at src/app.py lines 14-20. -/
structure SessionState where
  file_decision_made : Bool
  file_decision : Option FileDecision
  new_filename : Option String
  deriving Repr, DecidableEq

/-- The initial session state (src/app.py lines 14-20): no decision made. -/
def initState : SessionState :=
  { file_decision_made := false, file_decision := none, new_filename := none }

/-- Outcome of the decision phase of `download_with_streamlit`
(src/app.py lines 192-259): either the run stops to await a button press
(`st.stop()`), or it returns early as skipped, or it proceeds to download
with an effective overwrite flag and effective title.  The carried
`SessionState` is the state after the phase. -/
inductive AppOutcome where
  | await
  | skipped (post : SessionState)
  | download (overwrite : Bool) (effective_title : Option String) (post : SessionState)
  deriving Repr, DecidableEq

/-- The collision decision phase of `download_with_streamlit`
(src/app.py lines 192-259).  `title` is the raw video title; the effective
title is `none` exactly when the Python code would set `video_title = None`
(a `new_name` decision with no stored filename). -/
def download_decision_phase (fs : FileSystem) (output_path title : String)
    (force : Bool) (st : SessionState) : AppOutcome :=
  let video_title := sanitize_title title
  let file_exists :=
    (fs (potential_filename output_path video_title)).isSome ||
    (fs (potential_filename_audio output_path video_title)).isSome
  if file_exists && !force && !st.file_decision_made then
    .await
  else if st.file_decision_made then
    match st.file_decision with
    | some .redownload => .download true (some video_title) initState
    | some .new_name => .download force st.new_filename initState
    | some .skipDecision => .skipped initState
    | none => .download force (some video_title) initState
  else
    .download force (some video_title) initState

/-- The session state carried by a non-awaiting outcome. -/
def AppOutcome.post? : AppOutcome → Option SessionState
  | .await => none
  | .skipped post => some post
  | .download _ _ post => some post

/-- The `on_new_name` callback (src/app.py lines 209-212). -/
def on_new_name (video_title : String) (timestamp : Nat) (st : SessionState) :
    SessionState :=
  { st with
    file_decision_made := true
    file_decision := some .new_name
    new_filename := some (video_title ++ "_" ++ toString timestamp) }

/-! ## Post-download verification (`download_with_streamlit`, lines 348-367) -/

/-- The final report of the browser surface after the collaborator returns. -/
inductive PostReport where
  | success (path : String) (sizeBytes : Nat)
  | missing_warning (path : String)
  deriving Repr, DecidableEq

/-- The expected output path of src/app.py lines 348-354: `.mp3` when audio
extraction was requested (`'bestaudio' in format_id and 'mp3' in format_id`),
else `.mp4`. -/
def app_expected_path (output_path effective_title format_id : String) : String :=
  if strContains format_id "bestaudio" && strContains format_id "mp3" then
    potential_filename_audio output_path effective_title
  else
    potential_filename output_path effective_title

/-- The verification of src/app.py lines 357-367: report success with the
file size when the expected path exists, else a (non-fatal) warning. -/
def app_post_download (fs : FileSystem) (output_path effective_title format_id : String) :
    PostReport :=
  match fs (app_expected_path output_path effective_title format_id) with
  | some size => .success (app_expected_path output_path effective_title format_id) size
  | none => .missing_warning (app_expected_path output_path effective_title format_id)

/-! ## Progress hooks -/

/-- A yt-dlp progress event as consulted by `streamlit_progress_hook`
(src/app.py lines 283-318).  `none` models an absent dictionary key, so
every `d.get(k, default)` is total. -/
structure ProgressEvent where
  status : String
  downloaded_bytes : Option Nat
  total_bytes : Option Nat
  total_bytes_estimate : Option Nat
  speed : Option Nat
  eta : Option Nat
  deriving Repr, DecidableEq

/-- `d.get('total_bytes') or d.get('total_bytes_estimate', 0)`
(src/app.py line 287): Python `or` falls through on `None` and on `0`. -/
def effTotal (e : ProgressEvent) : Nat :=
  match e.total_bytes with
  | some t => if t = 0 then e.total_bytes_estimate.getD 0 else t
  | none => e.total_bytes_estimate.getD 0

/-- A displayed quantity that may be substituted by the "N/A" placeholder. -/
inductive TextVal where
  | na
  | val (q : ℚ)
  deriving Repr, DecidableEq

/-- The size line of the hook: either both counters with a percentage, or the
`unknown total` form with the byte count alone (src/app.py lines 307-310). -/
inductive SizeLine where
  | withTotal (downloadedMB totalMB percentage : ℚ)
  | unknownTotal (downloadedMB : ℚ)
  deriving Repr, DecidableEq

/-- What one `downloading` event renders to in the Streamlit surface. -/
structure ProgressRender where
  /-- Value passed to `progress_bar.progress`, when the bar is updated. -/
  barValue : Option ℚ
  /-- Percentage shown in `percent_text`, when shown. -/
  percentText : Option ℚ
  /-- Speed in MB/s, or the "N/A" placeholder. -/
  speedText : TextVal
  /-- The size line. -/
  sizeLine : SizeLine
  /-- ETA in seconds, or the "N/A" placeholder. -/
  etaText : TextVal
  deriving Repr, DecidableEq

/-- What the Streamlit hook emits for one event. -/
inductive HookOutput where
  | downloadingOut (r : ProgressRender)
  | finishedOut
  | ignored
  deriving Repr, DecidableEq

/-- Python division, raising `ZeroDivisionError` on a zero divisor. -/
def pyDiv (a b : ℚ) : Except String ℚ :=
  if b = 0 then .error "ZeroDivisionError" else .ok (a / b)

/-- `streamlit_progress_hook` (src/app.py lines 283-318).  An `Except.error`
marks a path where the Python code would raise (`ZeroDivisionError` from the
division, or `NameError` from reading `percentage` when it was never bound). -/
def streamlit_progress_hook (e : ProgressEvent) : Except String HookOutput :=
  if e.status = "downloading" then
    let downloaded_bytes := e.downloaded_bytes.getD 0
    let total_bytes := effTotal e
    match (if total_bytes > 0 then
             (pyDiv (downloaded_bytes : ℚ) (total_bytes : ℚ)).map some
           else .ok (none : Option ℚ)) with
    | .error msg => .error msg
    | .ok percentage? =>
      let downloaded_mb : ℚ := (downloaded_bytes : ℚ) / (1024 * 1024)
      let total_mb : ℚ := if total_bytes ≠ 0 then (total_bytes : ℚ) / (1024 * 1024) else 0
      let speed := e.speed.getD 0
      let speedStr : TextVal :=
        if speed ≠ 0 then .val ((speed : ℚ) / (1024 * 1024)) else .na
      let eta := e.eta.getD 0
      let etaStr : TextVal := if eta ≠ 0 then .val (eta : ℚ) else .na
      match (if total_bytes ≠ 0 then
               match percentage? with
               | some p => Except.ok (SizeLine.withTotal downloaded_mb total_mb p)
               | none => Except.error "NameError"
             else Except.ok (SizeLine.unknownTotal downloaded_mb)) with
      | .error msg => .error msg
      | .ok sizeLine =>
        .ok (.downloadingOut
          { barValue := percentage?.map fun p => min p 1
            percentText := percentage?
            speedText := speedStr
            sizeLine := sizeLine
            etaText := etaStr })
  else if e.status = "finished" then
    .ok .finishedOut
  else
    .ok .ignored

/-- A progress event as consulted by the command-line hook
`yt_dlp_progress_hook` (src/downloader.py lines 246-255): the preformatted
display strings, each possibly absent. -/
structure CliProgressEvent where
  status : String
  percent_str : Option String
  speed_str : Option String
  eta_str : Option String
  deriving Repr, DecidableEq

/-- What the command-line hook writes for one event. -/
inductive CliHookOutput where
  | progressLine (percent speed eta : String)
  | finishedLine
  | ignored
  deriving Repr, DecidableEq

/-- `yt_dlp_progress_hook` (src/downloader.py lines 246-255): substitutes
`"N/A"` for each absent display field via `d.get(k, 'N/A')`. -/
def yt_dlp_progress_hook (e : CliProgressEvent) : CliHookOutput :=
  if e.status = "downloading" then
    .progressLine (e.percent_str.getD "N/A") (e.speed_str.getD "N/A")
      (e.eta_str.getD "N/A")
  else if e.status = "finished" then
    .finishedLine
  else
    .ignored

/-! ## Concrete sample data for evaluations -/

/-- A concrete video descriptor (720p mp4 with audio). -/
def sampleVideoFmt : RawFormat :=
  { format_id := "22", ext := "mp4", resolution := "720p", vcodec := "avc1", acodec := "mp4a" }

/-- A concrete mp3 audio-only descriptor. -/
def sampleMp3Fmt : RawFormat :=
  { format_id := "139", ext := "mp3", resolution := "audio only", vcodec := "none", acodec := "mp4a" }

/-- A concrete m4a audio-only descriptor: decodable audio, non-mp3 container. -/
def sampleM4aFmt : RawFormat :=
  { format_id := "140", ext := "m4a", resolution := "audio only", vcodec := "none", acodec := "mp4a.40.2" }

/-- A concrete two-descriptor collaborator response. -/
def sampleCatalogRaw : List RawFormat := [sampleVideoFmt, sampleMp3Fmt]

/-- The empty filesystem: no path exists. -/
def emptyFS : FileSystem := fun _ => none

/-- A filesystem holding exactly `out/T.mp3` (size 1). -/
def mp3OnlyFS : FileSystem := fun p => if p = "out/T.mp3" then some 1 else none

/-- A filesystem holding exactly `out/T.mp4` (size 5). -/
def mp4OnlyFS : FileSystem := fun p => if p = "out/T.mp4" then some 5 else none

/-- A downloading event with every optional field absent. -/
def sampleBareEvent : ProgressEvent :=
  { status := "downloading", downloaded_bytes := none, total_bytes := none,
    total_bytes_estimate := none, speed := none, eta := none }

/-- A downloading event whose byte counter exceeds the reported total. -/
def sampleOverflowEvent : ProgressEvent :=
  { status := "downloading", downloaded_bytes := some 200, total_bytes := some 100,
    total_bytes_estimate := none, speed := none, eta := none }

/-- A session state holding a committed-pending `skip` decision. -/
def sampleSkipState : SessionState :=
  { file_decision_made := true, file_decision := some .skipDecision, new_filename := none }

/-! ## Helper lemmas -/

/-- The keep condition of line 56, in propositional form. -/
lemma keepFormat_iff (f : RawFormat) :
    keepFormat f = true ↔ (f.vcodec ≠ "none" ∨ (f.acodec ≠ "none" ∧ f.ext = "mp3")) := by
  simp [keepFormat]

/-- Every catalog entry has a video track or an audio track. -/
lemma mem_catalog_has_av (raw : List RawFormat) :
    ∀ g ∈ get_available_formats raw, g.has_video = true ∨ g.has_audio = true := by
  intro g hg
  simp only [get_available_formats, List.mem_map, List.mem_filter] at hg
  obtain ⟨f, ⟨-, hkeep⟩, rfl⟩ := hg
  rcases (keepFormat_iff f).mp hkeep with hv | ha
  · left
    simpa [toFormatInfo] using hv
  · right
    simpa [toFormatInfo] using ha.1

/-- When every entry is video-capable or audio-capable, the two partitions
cover the list. -/
lemma length_video_add_audio (fs : List FormatInfo)
    (h : ∀ f ∈ fs, f.has_video = true ∨ f.has_audio = true) :
    (video_formats fs).length + (audio_formats fs).length = fs.length := by
  induction fs with
  | nil => rfl
  | cons a t ih =>
    have ht := ih fun f hf => h f (List.mem_cons_of_mem _ hf)
    have ha := h a (List.mem_cons_self _ _)
    cases hv : a.has_video with
    | true =>
      simp [video_formats, audio_formats, List.filter_cons, hv] at ht ⊢
      omega
    | false =>
      have hau : a.has_audio = true := by
        rcases ha with hv' | hau
        · exact absurd hv' (by simp [hv])
        · exact hau
      simp [video_formats, audio_formats, List.filter_cons, hv, hau] at ht ⊢
      omega

/-- Mapping `format_id` over rows built from an enumerated list recovers the
`format_id`s of the list itself. -/
lemma enum_rows_map_format_id (l : List FormatInfo) (f : Nat × FormatInfo → FormatRow)
    (hf : ∀ p, FormatRow.format_id (f p) = FormatInfo.format_id p.2) :
    (l.enum.map f).map FormatRow.format_id = l.map FormatInfo.format_id := by
  have hc : FormatRow.format_id ∘ f = FormatInfo.format_id ∘ Prod.snd := funext hf
  rw [List.map_map, hc, ← List.map_map, List.enum_map_snd]

/-! ## Claims -/

/-- C1 (amended): the Format Catalog Builder keeps a raw descriptor iff it has
a decodable video track, or a decodable audio track together with the `mp3`
container extension — not merely any decodable audio track; the kept
descriptors are partitioned into video-capable and audio-only entries, each
partition a sublist of the catalog (so the collaborator's relative order is
preserved), with membership characterized by the track flags. -/
theorem C1_catalog_filter_partition (raw : List RawFormat) :
    (∀ f : RawFormat,
      keepFormat f = false ↔
        ¬(f.vcodec ≠ "none" ∨ (f.acodec ≠ "none" ∧ f.ext = "mp3"))) ∧
    List.Sublist (video_formats (get_available_formats raw)) (get_available_formats raw) ∧
    List.Sublist (audio_formats (get_available_formats raw)) (get_available_formats raw) ∧
    (∀ g ∈ get_available_formats raw,
      (g ∈ video_formats (get_available_formats raw) ↔ g.has_video = true) ∧
      (g ∈ audio_formats (get_available_formats raw) ↔
        (g.has_audio = true ∧ g.has_video = false))) := by
  refine ⟨?_, List.filter_sublist _, List.filter_sublist _, ?_⟩
  · intro f
    rw [← keepFormat_iff f]
    cases keepFormat f <;> simp
  · intro g hg
    constructor
    · rw [video_formats, List.mem_filter]
      simp [hg]
    · rw [audio_formats, List.mem_filter]
      simp [hg]

/-- C1 witness: the partition membership characterization, evaluated on a
concrete two-entry catalog at its video entry. -/
theorem C1_catalog_filter_partition_witness :
    (toFormatInfo sampleVideoFmt ∈ get_available_formats sampleCatalogRaw) ∧
    (toFormatInfo sampleVideoFmt ∈
        video_formats (get_available_formats sampleCatalogRaw) ↔
      (toFormatInfo sampleVideoFmt).has_video = true) :=
  ⟨by decide,
   ((C1_catalog_filter_partition sampleCatalogRaw).2.2.2 _ (by decide)).1⟩

/-- C1 counterexample: a raw descriptor with a decodable audio track
(`acodec ≠ 'none'`) but a non-mp3 container extension is excluded from the
catalog, contradicting the claim that a descriptor is excluded only when it
has neither decodable audio nor decodable video. -/
theorem C1_counterexample :
    sampleM4aFmt.acodec ≠ "none" ∧
    keepFormat sampleM4aFmt = false ∧
    get_available_formats [sampleM4aFmt] = [] :=
  ⟨by decide, rfl, rfl⟩

/-- C3: the Selection Resolver is total on builder-produced catalogs — every
input yields a defined format id or fallback expression (no `IndexError`
path is reachable), and any out-of-range integer, blank input, or
non-numeric input resolves to the "best combined" fallback expression. -/
theorem C3_selection_total (raw : List RawFormat) (inp : UserInput) :
    (selection_resolve (get_available_formats raw) inp).isSome = true ∧
    (∀ n : Int, (n < 0 ∨ ((get_available_formats raw).length : Int) + 2 ≤ n) →
      selection_resolve (get_available_formats raw) (.num n) = some best_expr) ∧
    selection_resolve (get_available_formats raw) .blank = some best_expr ∧
    selection_resolve (get_available_formats raw) .nonNumeric = some best_expr := by
  have hlen := length_video_add_audio (get_available_formats raw) (mem_catalog_has_av raw)
  refine ⟨?_, ?_, rfl, rfl⟩
  · cases inp with
    | blank => rfl
    | nonNumeric => rfl
    | num idx =>
      simp only [selection_resolve]
      split_ifs with h1 h2 h3 h4
      · rw [Option.isSome_map', ← Option.ne_none_iff_isSome, Ne, List.get?_eq_none]
        omega
      · rw [Option.isSome_map', ← Option.ne_none_iff_isSome, Ne, List.get?_eq_none]
        omega
      · rfl
      · rfl
      · rfl
  · intro n hn
    simp only [selection_resolve]
    split_ifs with h1 h2 h3 h4
    · exfalso
      omega
    · exfalso
      omega
    · exfalso
      omega
    · exfalso
      omega
    · rfl

/-- C3 witness: the resolver evaluated at a concrete out-of-range input on the
empty catalog. -/
theorem C3_selection_total_witness :
    ((-1 : Int) < 0 ∨ ((get_available_formats []).length : Int) + 2 ≤ -1) ∧
    selection_resolve (get_available_formats []) (.num (-1)) = some best_expr :=
  ⟨Or.inl (by decide),
   (C3_selection_total [] (.num (-1))).2.1 (-1) (Or.inl (by decide))⟩

/-- C8: for every catalog produced by the builder, the displayed table is the
video-capable rows, then the audio-only rows, then the two synthesized
entries ("best combined" then "best audio") as the final two rows in that
fixed order; the video and audio row blocks carry exactly the format ids of
the respective partitions, in order. -/
theorem C8_display_order (raw : List RawFormat)
    (h : get_available_formats raw ≠ []) :
    ∃ vrows arows : List FormatRow,
      format_data (get_available_formats raw) =
        vrows ++ arows ++
          [{ idx := (get_available_formats raw).length, format_id := "best",
             content := "Best quality" },
           { idx := (get_available_formats raw).length + 1, format_id := "bestaudio",
             content := "Best audio" }] ∧
      vrows.map FormatRow.format_id =
        (video_formats (get_available_formats raw)).map FormatInfo.format_id ∧
      arows.map FormatRow.format_id =
        (audio_formats (get_available_formats raw)).map FormatInfo.format_id ∧
      (∀ r ∈ vrows, r.content = "Video" ∨ r.content = "Video+Audio") ∧
      (∀ r ∈ arows, r.content = "Audio only") := by
  refine ⟨_, _, rfl, ?_, ?_, ?_, ?_⟩
  · exact enum_rows_map_format_id _ _ fun p => rfl
  · exact enum_rows_map_format_id _ _ fun p => rfl
  · intro r hr
    simp only [List.mem_map] at hr
    obtain ⟨p, -, rfl⟩ := hr
    dsimp only
    split
    · exact Or.inr rfl
    · exact Or.inl rfl
  · intro r hr
    simp only [List.mem_map] at hr
    obtain ⟨p, -, rfl⟩ := hr
    rfl

/-- C8 witness: the display decomposition on a concrete two-entry catalog. -/
theorem C8_display_order_witness :
    get_available_formats sampleCatalogRaw ≠ [] ∧
    (∃ vrows arows : List FormatRow,
      format_data (get_available_formats sampleCatalogRaw) =
        vrows ++ arows ++
          [{ idx := (get_available_formats sampleCatalogRaw).length,
             format_id := "best", content := "Best quality" },
           { idx := (get_available_formats sampleCatalogRaw).length + 1,
             format_id := "bestaudio", content := "Best audio" }] ∧
      vrows.map FormatRow.format_id =
        (video_formats (get_available_formats sampleCatalogRaw)).map FormatInfo.format_id ∧
      arows.map FormatRow.format_id =
        (audio_formats (get_available_formats sampleCatalogRaw)).map FormatInfo.format_id ∧
      (∀ r ∈ vrows, r.content = "Video" ∨ r.content = "Video+Audio") ∧
      (∀ r ∈ arows, r.content = "Audio only")) :=
  ⟨by decide, C8_display_order sampleCatalogRaw (by decide)⟩

/-- C2 counterexample: with no file at any candidate destination path but the
force flag set, both surfaces resolve to Proceed with overwrite = true, not
Proceed(overwrite=false) as the claim requires for every force-flag value. -/
theorem C2_counterexample :
    emptyFS (potential_filename "out" "T") = none ∧
    emptyFS (potential_filename_audio "out" "T") = none ∧
    (download_with_yt_dlp emptyFS "out" "T" "best[ext=mp4]" true "" 0).prompted = false ∧
    (download_with_yt_dlp emptyFS "out" "T" "best[ext=mp4]" true "" 0).overwrites = true ∧
    download_decision_phase emptyFS "out" "T" true initState =
      .download true (some "T") initState :=
  ⟨rfl, rfl, rfl, rfl, rfl⟩

/-- C2 (amended): when no candidate destination path exists, both surfaces
proceed without prompting or awaiting a decision, and the overwrite flag of
the decision equals the forceOverwrite flag — Proceed(overwrite=false)
exactly when the flag is unset. -/
theorem C2_no_collision_proceeds (fs : FileSystem) (out title fmt response : String)
    (force : Bool) (ts : Nat)
    (hv : fs (potential_filename out (sanitize_title title)) = none)
    (ha : fs (potential_filename_audio out (sanitize_title title)) = none) :
    (download_with_yt_dlp fs out title fmt force response ts).prompted = false ∧
    (download_with_yt_dlp fs out title fmt force response ts).invoked_download = true ∧
    (download_with_yt_dlp fs out title fmt force response ts).overwrites = force ∧
    download_decision_phase fs out title force initState =
      .download force (some (sanitize_title title)) initState := by
  refine ⟨?_, ?_, ?_, ?_⟩ <;>
    simp [download_with_yt_dlp, download_decision_phase, initState, hv, ha]

/-- C2 witness: the amended behavior on the empty filesystem with the force
flag unset. -/
theorem C2_no_collision_proceeds_witness :
    emptyFS (potential_filename "out" (sanitize_title "T")) = none ∧
    emptyFS (potential_filename_audio "out" (sanitize_title "T")) = none ∧
    ((download_with_yt_dlp emptyFS "out" "T" "best[ext=mp4]" false "" 0).prompted = false ∧
     (download_with_yt_dlp emptyFS "out" "T" "best[ext=mp4]" false "" 0).invoked_download = true ∧
     (download_with_yt_dlp emptyFS "out" "T" "best[ext=mp4]" false "" 0).overwrites = false ∧
     download_decision_phase emptyFS "out" "T" false initState =
       .download false (some (sanitize_title "T")) initState) :=
  ⟨rfl, rfl, C2_no_collision_proceeds emptyFS "out" "T" "best[ext=mp4]" "" false 0 rfl rfl⟩

/-- C4 counterexample: an audio-extraction download on the command-line
surface, with an existing file at the mp3 candidate path, proceeds without
any collision prompt: the CLI computes only the mp4 candidate path, so a
collision on the audio container path goes undetected. -/
theorem C4_counterexample :
    mp3OnlyFS (potential_filename_audio "out" "T") = some 1 ∧
    (download_with_yt_dlp mp3OnlyFS "out" "T" "bestaudio[ext=mp3]/bestaudio"
      false "" 0).audio_extraction = true ∧
    (download_with_yt_dlp mp3OnlyFS "out" "T" "bestaudio[ext=mp3]/bestaudio"
      false "" 0).prompted = false ∧
    (download_with_yt_dlp mp3OnlyFS "out" "T" "bestaudio[ext=mp3]/bestaudio"
      false "" 0).invoked_download = true :=
  ⟨rfl, rfl, rfl, rfl⟩

/-- C4 (amended): the browser surface computes both candidate final paths
(the `.mp4` video container and the `.mp3` audio container) and detects a
collision exactly when either exists; the command-line surface computes only
the `.mp4` candidate, and its collision prompt fires exactly when that path
exists and force is unset, regardless of the `.mp3` path. -/
theorem C4_candidate_paths (fs : FileSystem) (out title fmt response : String)
    (force : Bool) (ts : Nat) :
    ((download_with_yt_dlp fs out title fmt force response ts).prompted = true ↔
      ((fs (potential_filename out (sanitize_title title))).isSome = true ∧
        force = false)) ∧
    (download_decision_phase fs out title force initState = .await ↔
      (((fs (potential_filename out (sanitize_title title))).isSome = true ∨
        (fs (potential_filename_audio out (sanitize_title title))).isSome = true) ∧
       force = false)) := by
  constructor
  · cases hp : (fs (potential_filename out (sanitize_title title))).isSome <;>
      cases force <;>
        simp [download_with_yt_dlp, hp] <;>
          split_ifs <;> rfl
  · cases hp : (fs (potential_filename out (sanitize_title title))).isSome <;>
      cases hq : (fs (potential_filename_audio out (sanitize_title title))).isSome <;>
        cases force <;>
          simp [download_decision_phase, initState, hp, hq]

/-- C5: whenever the browser surface processes a pending collision decision
(redownload, new name, or skip), the outcome carries the persisted decision
state reset to its initial value, so no later download attempt can observe
the consumed decision. -/
theorem C5_decision_state_reset (fs : FileSystem) (out title : String) (force : Bool)
    (st : SessionState) (h : st.file_decision_made = true) :
    (download_decision_phase fs out title force st).post? = some initState := by
  cases hd : st.file_decision with
  | none => simp [download_decision_phase, h, hd, AppOutcome.post?]
  | some d => cases d <;> simp [download_decision_phase, h, hd, AppOutcome.post?]

/-- C5 witness: a pending skip decision is consumed and the state returns to
its initial value. -/
theorem C5_decision_state_reset_witness :
    sampleSkipState.file_decision_made = true ∧
    (download_decision_phase emptyFS "out" "T" false sampleSkipState).post? =
      some initState :=
  ⟨rfl, C5_decision_state_reset emptyFS "out" "T" false sampleSkipState rfl⟩

/-- C7 counterexample: on the command-line surface with no file present at
the expected output path after the collaborator returns, the code still
reports success and emits no warning — it never checks the expected path,
contradicting the claimed post-download verification for that surface. -/
theorem C7_counterexample :
    emptyFS (potential_filename "out" "T") = none ∧
    (download_with_yt_dlp emptyFS "out" "T" "best[ext=mp4]" false "" 0).reported_success
      = true ∧
    (download_with_yt_dlp emptyFS "out" "T" "best[ext=mp4]" false "" 0).warned_missing
      = false :=
  ⟨rfl, rfl, rfl⟩

/-- C7 (amended): only the browser surface performs the post-download check:
it reports a success outcome carrying the final file size when the expected
path exists, and a non-fatal missing-file warning otherwise; the command-line
surface never emits such a warning. -/
theorem C7_post_verification (fs : FileSystem) (out title fmt response : String)
    (force : Bool) (ts : Nat) (sz : Nat) :
    (fs (app_expected_path out title fmt) = some sz →
      app_post_download fs out title fmt =
        .success (app_expected_path out title fmt) sz) ∧
    (fs (app_expected_path out title fmt) = none →
      app_post_download fs out title fmt =
        .missing_warning (app_expected_path out title fmt)) ∧
    (download_with_yt_dlp fs out title fmt force response ts).warned_missing = false := by
  refine ⟨?_, ?_, ?_⟩
  · intro h
    simp [app_post_download, h]
  · intro h
    simp [app_post_download, h]
  · simp only [download_with_yt_dlp]
    split_ifs <;> rfl

/-- C7 witness: the browser-surface verification reporting success with the
final size on a filesystem holding the expected file. -/
theorem C7_post_verification_witness :
    mp4OnlyFS (app_expected_path "out" "T" "best[ext=mp4]") = some 5 ∧
    app_post_download mp4OnlyFS "out" "T" "best[ext=mp4]" =
      .success (app_expected_path "out" "T" "best[ext=mp4]") 5 :=
  ⟨rfl, (C7_post_verification mp4OnlyFS "out" "T" "best[ext=mp4]" "" false 0 5).1 rfl⟩

/-- C9: when the CLI user declines both re-download and rename at a collision
prompt, the run skips the download: it returns True without invoking the
download collaborator, and the per-URL success count counts it as a
success. -/
theorem C9_skip_counts_success (fs : FileSystem) (out title fmt response : String)
    (ts : Nat) (prev : List CliResult)
    (hex : (fs (potential_filename out (sanitize_title title))).isSome = true)
    (hy : response ≠ "y") (hr : response ≠ "r") :
    (download_with_yt_dlp fs out title fmt false response ts).retval = true ∧
    (download_with_yt_dlp fs out title fmt false response ts).invoked_download = false ∧
    success_count (prev ++ [download_with_yt_dlp fs out title fmt false response ts]) =
      success_count prev + 1 := by
  refine ⟨?_, ?_, ?_⟩ <;>
    simp [download_with_yt_dlp, success_count, List.filter_append, hex, hy, hr]

/-- C9 witness: a concrete skipped collision counted as a success. -/
theorem C9_skip_counts_success_witness :
    (mp4OnlyFS (potential_filename "out" (sanitize_title "T"))).isSome = true ∧
    ("n" : String) ≠ "y" ∧ ("n" : String) ≠ "r" ∧
    ((download_with_yt_dlp mp4OnlyFS "out" "T" "best[ext=mp4]" false "n" 0).retval = true ∧
     (download_with_yt_dlp mp4OnlyFS "out" "T" "best[ext=mp4]" false "n" 0).invoked_download
       = false ∧
     success_count
         ([] ++ [download_with_yt_dlp mp4OnlyFS "out" "T" "best[ext=mp4]" false "n" 0]) =
       success_count [] + 1) :=
  ⟨rfl, by decide, by decide,
   C9_skip_counts_success mp4OnlyFS "out" "T" "best[ext=mp4]" "n" 0 []
     rfl (by decide) (by decide)⟩

/-- The hook's rendering of a downloading event with positive effective
total: percentage, capped bar, full size line. -/
lemma streamlit_hook_downloading_pos (e : ProgressEvent) (h : e.status = "downloading")
    (ht : 0 < effTotal e) :
    streamlit_progress_hook e = .ok (.downloadingOut
      { barValue := some (min ((e.downloaded_bytes.getD 0 : ℚ) / (effTotal e : ℚ)) 1)
        percentText := some ((e.downloaded_bytes.getD 0 : ℚ) / (effTotal e : ℚ))
        speedText :=
          if e.speed.getD 0 ≠ 0 then .val ((e.speed.getD 0 : ℚ) / (1024 * 1024)) else .na
        sizeLine := .withTotal ((e.downloaded_bytes.getD 0 : ℚ) / (1024 * 1024))
          ((effTotal e : ℚ) / (1024 * 1024))
          ((e.downloaded_bytes.getD 0 : ℚ) / (effTotal e : ℚ))
        etaText := if e.eta.getD 0 ≠ 0 then .val ((e.eta.getD 0 : ℚ)) else .na }) := by
  have hne : effTotal e ≠ 0 := Nat.pos_iff_ne_zero.mp ht
  have hq : ((effTotal e : ℚ)) ≠ 0 := Nat.cast_ne_zero.mpr hne
  simp [streamlit_progress_hook, h, ht, hne, pyDiv, hq, Except.map]

/-- The hook's rendering of a downloading event with zero effective total:
no percentage, no bar update, indeterminate size line. -/
lemma streamlit_hook_downloading_zero (e : ProgressEvent) (h : e.status = "downloading")
    (ht : effTotal e = 0) :
    streamlit_progress_hook e = .ok (.downloadingOut
      { barValue := none
        percentText := none
        speedText :=
          if e.speed.getD 0 ≠ 0 then .val ((e.speed.getD 0 : ℚ) / (1024 * 1024)) else .na
        sizeLine := .unknownTotal ((e.downloaded_bytes.getD 0 : ℚ) / (1024 * 1024))
        etaText := if e.eta.getD 0 ≠ 0 then .val ((e.eta.getD 0 : ℚ)) else .na }) := by
  simp [streamlit_progress_hook, h, ht]

/-- C6: for every downloading event the Streamlit progress hook returns a
report without raising: the percentage is a defined value exactly when the
effective total byte count is positive; a zero total yields the
indeterminate byte-count-only line with no percentage and no bar update;
absent or zero speed and ETA fields are substituted with the "N/A"
placeholder.  The command-line hook likewise substitutes "N/A" for absent
display fields. -/
theorem C6_progress_reporter (e : ProgressEvent) (h : e.status = "downloading") :
    (∃ r : ProgressRender,
      streamlit_progress_hook e = .ok (.downloadingOut r) ∧
      (0 < effTotal e →
        r.percentText = some ((e.downloaded_bytes.getD 0 : ℚ) / (effTotal e : ℚ))) ∧
      (effTotal e = 0 →
        r.percentText = none ∧ r.barValue = none ∧
        r.sizeLine = .unknownTotal ((e.downloaded_bytes.getD 0 : ℚ) / (1024 * 1024))) ∧
      ((e.speed = none ∨ e.speed = some 0) → r.speedText = .na) ∧
      ((e.eta = none ∨ e.eta = some 0) → r.etaText = .na)) ∧
    (∀ ec : CliProgressEvent, ec.status = "downloading" → ec.percent_str = none →
      ec.speed_str = none → ec.eta_str = none →
      yt_dlp_progress_hook ec = .progressLine "N/A" "N/A" "N/A") := by
  constructor
  · by_cases ht : 0 < effTotal e
    · refine ⟨_, streamlit_hook_downloading_pos e h ht, ?_, ?_, ?_, ?_⟩
      · intro _
        rfl
      · intro h0
        omega
      · intro hs
        have hz : e.speed.getD 0 = 0 := by
          rcases hs with hs | hs <;> simp [hs]
        simp [hz]
      · intro hs
        have hz : e.eta.getD 0 = 0 := by
          rcases hs with hs | hs <;> simp [hs]
        simp [hz]
    · have ht0 : effTotal e = 0 := by omega
      refine ⟨_, streamlit_hook_downloading_zero e h ht0, ?_, ?_, ?_, ?_⟩
      · intro hpos
        omega
      · intro _
        exact ⟨rfl, rfl, rfl⟩
      · intro hs
        have hz : e.speed.getD 0 = 0 := by
          rcases hs with hs | hs <;> simp [hs]
        simp [hz]
      · intro hs
        have hz : e.eta.getD 0 = 0 := by
          rcases hs with hs | hs <;> simp [hs]
        simp [hz]
  · intro ec hst hp hs he
    simp [yt_dlp_progress_hook, hst, hp, hs, he]

/-- C6 witness: the hook evaluated on a downloading event with every optional
field absent. -/
theorem C6_progress_reporter_witness :
    sampleBareEvent.status = "downloading" ∧
    (∃ r : ProgressRender,
      streamlit_progress_hook sampleBareEvent = .ok (.downloadingOut r) ∧
      (0 < effTotal sampleBareEvent →
        r.percentText =
          some ((sampleBareEvent.downloaded_bytes.getD 0 : ℚ) / (effTotal sampleBareEvent : ℚ))) ∧
      (effTotal sampleBareEvent = 0 →
        r.percentText = none ∧ r.barValue = none ∧
        r.sizeLine =
          .unknownTotal ((sampleBareEvent.downloaded_bytes.getD 0 : ℚ) / (1024 * 1024))) ∧
      ((sampleBareEvent.speed = none ∨ sampleBareEvent.speed = some 0) →
        r.speedText = .na) ∧
      ((sampleBareEvent.eta = none ∨ sampleBareEvent.eta = some 0) →
        r.etaText = .na)) :=
  ⟨rfl, (C6_progress_reporter sampleBareEvent rfl).1⟩

/-- C10: for every downloading event with a known positive total, the value
passed to the progress-bar widget is min(downloadedBytes/totalBytes, 1), and
any value handed to the bar is at most 1, so the displayed bar never exceeds
100% even when the byte counter overshoots the total. -/
theorem C10_bar_capped (e : ProgressEvent) (h : e.status = "downloading")
    (ht : 0 < effTotal e) :
    ∃ r : ProgressRender,
      streamlit_progress_hook e = .ok (.downloadingOut r) ∧
      r.barValue =
        some (min ((e.downloaded_bytes.getD 0 : ℚ) / (effTotal e : ℚ)) 1) ∧
      ∀ q : ℚ, r.barValue = some q → q ≤ 1 := by
  refine ⟨_, streamlit_hook_downloading_pos e h ht, rfl, ?_⟩
  intro q hq
  have hq' := Option.some.inj hq
  rw [← hq']
  exact min_le_right _ _

/-- C10 witness: a downloading event whose byte counter exceeds the total
still hands the bar a value of at most 1. -/
theorem C10_bar_capped_witness :
    sampleOverflowEvent.status = "downloading" ∧
    0 < effTotal sampleOverflowEvent ∧
    (∃ r : ProgressRender,
      streamlit_progress_hook sampleOverflowEvent = .ok (.downloadingOut r) ∧
      r.barValue =
        some (min ((sampleOverflowEvent.downloaded_bytes.getD 0 : ℚ) /
          (effTotal sampleOverflowEvent : ℚ)) 1) ∧
      ∀ q : ℚ, r.barValue = some q → q ≤ 1) :=
  ⟨rfl, by decide, C10_bar_capped sampleOverflowEvent rfl (by decide)⟩

end YtDl
